import Mathlib

/-!
Shallow embedding of the Daily-Coordinator serverless handlers
(`src/lambda/index.py`, `src/lambda/gcp_pubsub.py`, `src/lambda/slack_poster.py`,
`src/lambda-whatsapp/whatsapp_sender.py`, `src/cloud-function/main.py`)
and proofs about them.

Python dict/JSON values are modelled by the inductive type `JVal`.  External
SDK calls (Secrets Manager, DynamoDB, S3, SNS, Pub/Sub, Firestore, Twilio,
`json.loads`) are modelled by oracle parameters: an `Except String α` value
stands for "the call either returns `α` or raises an exception carrying a
message".  Python exceptions raised by the embedded code itself (e.g.
`AttributeError` from calling `.get` on a non-dict) are modelled with the
same `Except String` monad.
-/

set_option linter.unusedVariables false

/-- A Python/JSON value: `None`, `bool`, `int`, `str`, `list`, `dict`.
(Floats do not occur in any payload the handlers construct.) -/
inductive JVal where
  | jnull
  | jbool (b : Bool)
  | jint (n : Int)
  | jstr (s : String)
  | jarr (xs : List JVal)
  | jobj (fields : List (String × JVal))
  deriving Repr

namespace JVal

/-- Python truthiness (`bool(v)`): `None`, `False`, `0`, `""`, `[]`, and
an empty dict are falsy, everything else is truthy. -/
def truthy : JVal → Bool
  | .jnull => false
  | .jbool b => b
  | .jint n => n != 0
  | .jstr s => !s.isEmpty
  | .jarr xs => !xs.isEmpty
  | .jobj fs => !fs.isEmpty

/-- Python `a or b` (returns the first truthy operand, else the last). -/
def pyOr (a b : JVal) : JVal := if a.truthy then a else b

/-- Lookup in an association list standing for a Python dict
(`d.get(k)`, returning `None` when absent). -/
def dictGet (fs : List (String × JVal)) (k : String) : JVal :=
  ((fs.lookup k).getD .jnull)

/-- Lookup with an explicit default (`d.get(k, default)`). -/
def dictGetD (fs : List (String × JVal)) (k : String) (d : JVal) : JVal :=
  ((fs.lookup k).getD d)

/-- Python `v.get(k)` on an arbitrary value: raises `AttributeError`
when `v` is not a dict. -/
def pyGet (v : JVal) (k : String) : Except String JVal :=
  match v with
  | .jobj fs => .ok (dictGet fs k)
  | _ => .error "AttributeError"

/-- Python `v.get(k, default)` on an arbitrary value. -/
def pyGetD (v : JVal) (k : String) (d : JVal) : Except String JVal :=
  match v with
  | .jobj fs => .ok (dictGetD fs k d)
  | _ => .error "AttributeError"

/-- `isinstance(v, dict)`. -/
def isDict : JVal → Bool
  | .jobj _ => true
  | _ => false

/-- `isinstance(v, str)`. -/
def isStr : JVal → Bool
  | .jstr _ => true
  | _ => false

/-- Python `v == s` for a string literal `s` (False across types). -/
def eqStr (v : JVal) (s : String) : Bool :=
  match v with
  | .jstr t => t == s
  | _ => false

/-- Python `v == n` for an int literal `n` (False across types). -/
def eqInt (v : JVal) (n : Int) : Bool :=
  match v with
  | .jint m => m == n
  | _ => false

/-- Python `str(v)` used in f-string interpolation.  Faithful on scalars;
container values are abbreviated (no theorem below interpolates a
container value). -/
def pyStr : JVal → String
  | .jnull => "None"
  | .jbool true => "True"
  | .jbool false => "False"
  | .jint n => toString n
  | .jstr s => s
  | .jarr _ => "[...]"
  | .jobj _ => "\x7b...\x7d"

end JVal

/-! ## `src/lambda/gcp_pubsub.py` — second-bus publisher decorator

`lambda_handler_with_pubsub(original_handler)` returns a wrapper that calls
the original handler, and — when the result is a dict with `statusCode == 200`
— decodes `result.get("body", "{}")` with `json.loads` and publishes the
decoded payload to GCP Pub/Sub, swallowing any exception from that block.

`loads` is the `json.loads` oracle (its argument is the raw `body` value, a
`JVal`, since `result.get` can yield a non-string; `json.loads` then raises).
`publish` is the `publish_to_pubsub` oracle (returns a message id or raises).
The wrapper's returned value is paired with the list of payloads for which a
publish call was attempted, so that "attempts a publish" is observable. -/

namespace GcpPubsub

/-- `isinstance(result, dict) and result.get("statusCode") == 200`. -/
def isSuccessDict (result : JVal) : Bool :=
  match result with
  | .jobj fs => JVal.eqInt (JVal.dictGet fs "statusCode") 200
  | _ => false

/-- The body of the wrapper produced by `lambda_handler_with_pubsub`, applied
to the result of the original handler.  Returns the handler result together
with the list of payloads passed to `publish_to_pubsub`. -/
def wrapperStep (result : JVal) (loads : JVal → Except String JVal)
    (publish : JVal → Except String String) : JVal × List JVal :=
  match result with
  | .jobj fs =>
    if JVal.eqInt (JVal.dictGet fs "statusCode") 200 then
      -- try: body = json.loads(result.get("body", "{}")); publish_to_pubsub(body)
      -- except Exception: log and continue
      match loads (JVal.dictGetD fs "body" (.jstr "\x7b\x7d")) with
      | .error _ => (result, [])          -- json decode raised; swallowed
      | .ok body =>
        -- publish_to_pubsub(body) is attempted; its exception, if any,
        -- is swallowed and the result is returned unchanged either way
        match publish body with
        | .ok _ => (result, [body])
        | .error _ => (result, [body])
    else (result, [])
  | _ => (result, [])

/-- `lambda_handler_with_pubsub`: the decorator itself. -/
def lambda_handler_with_pubsub (original_handler : JVal → JVal)
    (loads : JVal → Except String JVal) (publish : JVal → Except String String)
    (event : JVal) : JVal × List JVal :=
  wrapperStep (original_handler event) loads publish

end GcpPubsub

/-! ## `src/cloud-function/main.py` — document-sync handler

Firestore is modelled as two collections of documents; a document is an
association list of field names to `FsVal` values.  The Pub/Sub message
decode chain (`base64.b64decode(...).decode("utf-8")` + `json.loads`) is one
oracle `loads`.  The two Firestore writes have outcome oracles `wr1`/`wr2`
(the SDK call either succeeds or raises); their effect on the modelled state
applies only on success.  The result type `Except (String × FsState) FsState`
carries, on an exception, the state at the moment of the raise. -/

namespace CloudFunction

/-- A Firestore field value: a JSON value written by the client, or the
`SERVER_TIMESTAMP` sentinel resolved by the server. -/
inductive FsVal where
  | fjson (v : JVal)
  | fserver
  deriving Repr

/-- A Firestore document. -/
abbrev Doc := List (String × FsVal)

/-- Set or replace one entry of an association list, preserving all others
(used for both document fields and collection membership). -/
def setEntry {α : Type} : List (String × α) → String → α → List (String × α)
  | [], k, v => [(k, v)]
  | (k0, v0) :: rest, k, v =>
    if k0 = k then (k, v) :: rest else (k0, v0) :: setEntry rest k v

/-- The Firestore state: the `tasks` and `coordinators` collections. -/
structure FsState where
  tasks : List (String × Doc)
  coordinators : List (String × Doc)
  deriving Repr

/-- The merge write (`set(..., merge=True)`) performed on the per-coordinator
document: sets `last_status` and `last_update`, applies
`firestore.Increment(tp)` to `total_tasks` (adds when the existing value is an
integer, otherwise sets it to `tp`), and preserves every other field. -/
def mergeCoordinatorDoc (old : Doc) (lastStatus : JVal) (tp : Int) : Doc :=
  let newTotal : Int :=
    match old.lookup "total_tasks" with
    | some (.fjson (.jint m)) => m + tp
    | _ => tp
  setEntry (setEntry (setEntry old "last_status" (.fjson lastStatus))
    "last_update" .fserver) "total_tasks" (.fjson (.jint newTotal))

/-- The Pub/Sub trigger event: `event["data"]` (absent when `"data" not in
event`) and the value of `event.get("attributes", ...)` when present. -/
structure PubSubEvent where
  data : Option String
  attributes : Option JVal

/-- `pubsub_to_firestore(event, context)`.

`loads d` models `json.loads(base64.b64decode(d).decode("utf-8"))`;
`nowIso`/`nowEpoch` model `datetime.utcnow()`; `wr1`/`wr2` are the outcomes
of the two Firestore `set` calls.  The enclosing `except` block logs and
re-raises, so every exception propagates unchanged. -/
def pubsub_to_firestore (event : PubSubEvent) (loads : String → Except String JVal)
    (nowIso : String) (nowEpoch : Int) (wr1 wr2 : Except String Unit)
    (st : FsState) : Except (String × FsState) FsState :=
  match event.data with
  | none => .ok st                      -- "No data in Pub/Sub message": plain return
  | some d =>
    match loads d with
    | .error e => .error (e, st)        -- decode raised; logged and re-raised
    | .ok payload =>
      let attributes := event.attributes.getD (.jobj [])
      match payload with
      | .jobj pfs =>
        let coordinator_id := JVal.dictGetD pfs "coordinator_id" (.jstr "unknown")
        let timestamp := JVal.dictGetD pfs "timestamp" (.jstr nowIso)
        -- attributes.get(...) raises AttributeError when attributes is not a dict
        match attributes.pyGetD "event_type" (.jstr "update"),
              attributes.pyGetD "source" (.jstr "pubsub") with
        | .ok event_type, .ok source =>
          let task_doc : Doc :=
            [("coordinator_id", .fjson coordinator_id),
             ("status", .fjson (JVal.dictGetD pfs "status" (.jstr "unknown"))),
             ("tasks_processed", .fjson (JVal.dictGetD pfs "tasks_processed" (.jint 0))),
             ("errors", .fjson (JVal.dictGetD pfs "errors" (.jarr []))),
             ("timestamp", .fjson timestamp),
             ("event_type", .fjson event_type),
             ("source", .fjson source),
             ("created_at", .fserver),
             ("synced", .fjson (.jbool false))]
          let doc_id := coordinator_id.pyStr ++ "_" ++ toString nowEpoch
          match wr1 with
          | .error e => .error (e, st)
          | .ok _ =>
            let st1 : FsState := { st with tasks := setEntry st.tasks doc_id task_doc }
            match coordinator_id with
            | .jstr cid =>
              match JVal.dictGetD pfs "tasks_processed" (.jint 0) with
              | .jint tp =>
                match wr2 with
                | .error e => .error (e, st1)
                | .ok _ =>
                  let old := (st1.coordinators.lookup cid).getD []
                  let merged := mergeCoordinatorDoc old (JVal.dictGet pfs "status") tp
                  .ok { st1 with coordinators := setEntry st1.coordinators cid merged }
              | _ =>
                -- the SDK rejects a non-numeric firestore.Increment operand
                .error ("ValueError: increment operand must be numeric", st1)
            | _ =>
              -- the SDK rejects a non-string document path
              .error ("TypeError: document path must be a string", st1)
        | .error e, _ => .error (e, st)
        | _, .error e => .error (e, st)
      | _ => .error ("AttributeError", st)   -- payload.get on a non-dict payload

end CloudFunction

/-! ## `src/lambda/slack_poster.py` — webhook-relay handler

The summary extractor `_extract_summary` and the cached secret loader
`_load_webhook_url`.  `loads` models `json.loads` restricted to
`json.JSONDecodeError` handling (`none` = decode failure). -/

namespace SlackPoster

/-- The summary dict built by `_extract_summary`; values are Python values
(`jnull` models `None`). -/
structure Summary where
  task : JVal
  status : JVal
  details : JVal
  subject : JVal
  deriving Repr

/-- The initial summary dict. -/
def initSummary : Summary :=
  { task := .jstr "Daily Coordinator", status := .jstr "updated",
    details := .jnull, subject := .jnull }

/-- The `for record in event["Records"]` loop: finds the first record with
`EventSource == "aws:sns"`, fills `subject`/`details` from its `Sns` payload,
and overrides `task`/`status`/`details` when the message JSON-decodes to a
dict; stops (`break`) at that record. -/
def extractFromRecords (loads : String → Option JVal) (s : Summary) :
    List JVal → Except String Summary
  | [] => .ok s
  | r :: rest =>
    match r with
    | .jobj rfs =>
      if JVal.eqStr (JVal.dictGet rfs "EventSource") "aws:sns" then
        -- sns_payload = record.get("Sns", {})
        let sns_payload := JVal.dictGetD rfs "Sns" (.jobj [])
        -- .get("Subject") / .get("Message") raise when sns_payload is not a dict
        match sns_payload.pyGet "Subject", sns_payload.pyGet "Message" with
        | .ok subject, .ok message =>
          let s1 : Summary := { s with subject := subject, details := message }
          match message with
          | .jstr ms =>
            match loads ms with
            | some (.jobj dfs) =>
              .ok { s1 with
                task := JVal.pyOr (JVal.dictGet dfs "task_name")
                         (JVal.pyOr (JVal.dictGet dfs "task") s1.task),
                status := JVal.pyOr (JVal.dictGet dfs "status") s1.status,
                details := JVal.pyOr (JVal.dictGet dfs "details")
                         (JVal.pyOr (JVal.dictGet dfs "message") s1.details) }
            | _ => .ok s1      -- decode failed, or decoded value not a dict
          | _ => .ok s1        -- message not a str: no decode attempt
        | .error e, _ => .error e
        | _, .error e => .error e
      else extractFromRecords loads s rest
    | _ => .error "AttributeError"   -- record.get on a non-dict record

/-- `_extract_summary(event)`. -/
def _extract_summary (event : JVal) (loads : String → Option JVal) :
    Except String Summary :=
  match event with
  | .jobj efs =>
    match efs.lookup "Records" with
    | some recs =>
      match recs with
      | .jarr records => extractFromRecords loads initSummary records
      -- iterating a non-empty str/dict yields strings, whose .get raises;
      -- an empty one makes zero iterations; other types are not iterable
      | .jstr ms => if ms.isEmpty then .ok initSummary else .error "AttributeError"
      | .jobj ofs => if ofs.isEmpty then .ok initSummary else .error "AttributeError"
      | _ => .error "TypeError: not iterable"
    | none =>
      .ok { initSummary with
        task := JVal.pyOr (JVal.dictGet efs "task_name")
                 (JVal.pyOr (JVal.dictGet efs "task")
                   (JVal.pyOr (JVal.dictGet efs "coordinator_id") initSummary.task)),
        status := JVal.pyOr (JVal.dictGet efs "status") initSummary.status,
        details := JVal.pyOr (JVal.dictGet efs "details")
                 (JVal.pyOr (JVal.dictGet efs "message") initSummary.details) }
  | _ => .ok initSummary   -- not a dict: the guard returns the defaults

/-- `_render_message(summary)`; `hdr` is the `SLACK_MESSAGE_PREFIX` value. -/
def _render_message (hdr : String) (s : Summary) : String :=
  let lines := [hdr, "*Task:* " ++ s.task.pyStr, "*Status:* " ++ s.status.pyStr]
  let lines := if s.subject.truthy then lines ++ ["*Subject:* " ++ s.subject.pyStr] else lines
  let lines := if s.details.truthy then lines ++ ["*Details:* " ++ s.details.pyStr] else lines
  String.intercalate "\n" lines

/-- The outcome of one `_load_webhook_url()` call: the returned value (or the
raised exception), the module-level cache afterwards, and how many
`get_secret_value` calls were made during this call. -/
structure LoadOutcome where
  result : Except String JVal
  cache : Option JVal
  fetches : Nat
  deriving Repr

/-- `if _cached_webhook:` — the cache is consulted with Python truthiness. -/
def cacheHit : Option JVal → Bool
  | some w => w.truthy
  | none => false

/-- `if not SLACK_SECRET_NAME:` — the env variable is unset or empty. -/
def envMissing : Option String → Bool
  | some s => s.isEmpty
  | none => true

/-- The webhook value computed from the fetched `secret_string`: the
`SLACK_SECRET_KEY` / `webhook_url` entry when the secret is a JSON dict
(`None` for other JSON), or the raw string on `json.JSONDecodeError`. -/
def parseWebhook (secretKey : String) (loads : String → Option JVal)
    (ss : String) : JVal :=
  match loads ss with
  | some (.jobj pfs) =>
    JVal.pyOr (JVal.dictGet pfs secretKey) (JVal.dictGet pfs "webhook_url")
  | some _ => .jnull       -- payload not a dict → webhook = None
  | none => .jstr ss       -- JSONDecodeError → webhook = secret_string

/-- The body of `_load_webhook_url` past the cache check: env check, one
`get_secret_value` call, JSON decode of the secret, truthiness check, and
cache fill.  `secretKey` is `SLACK_WEBHOOK_SECRET_KEY`. -/
def loadFreshWebhook (secretName : Option String) (secretKey : String)
    (getSecret : Except String (Option String)) (loads : String → Option JVal)
    (cache : Option JVal) : LoadOutcome :=
  if envMissing secretName then
    { result := .error "ValueError: SLACK_WEBHOOK_SECRET_NAME environment variable is not set",
      cache := cache, fetches := 0 }
  else
    match getSecret with
    | .error e => { result := .error e, cache := cache, fetches := 1 }
    | .ok oss =>
      -- secret_string = response.get("SecretString"); if not secret_string: raise
      match oss with
      | none =>
        { result := .error "ValueError: Slack webhook secret does not contain SecretString data",
          cache := cache, fetches := 1 }
      | some ss =>
        if ss.isEmpty then
          { result := .error "ValueError: Slack webhook secret does not contain SecretString data",
            cache := cache, fetches := 1 }
        else
          let webhook : JVal := parseWebhook secretKey loads ss
          if webhook.truthy then
            { result := .ok webhook, cache := some webhook, fetches := 1 }
          else
            { result := .error "ValueError: Slack webhook URL not found within the provided secret",
              cache := cache, fetches := 1 }

/-- `_load_webhook_url()`, given the module-level cache `cache`. -/
def _load_webhook_url (secretName : Option String) (secretKey : String)
    (getSecret : Except String (Option String)) (loads : String → Option JVal)
    (cache : Option JVal) : LoadOutcome :=
  if cacheHit cache then
    { result := .ok ((cache.getD .jnull)), cache := cache, fetches := 0 }
  else
    loadFreshWebhook secretName secretKey getSecret loads cache


/-- The record predicate of the `Records` loop:
`record.get("EventSource") == "aws:sns"` (False for non-dict records). -/
def isSnsRecord (r : JVal) : Bool :=
  match r with
  | .jobj rfs => JVal.eqStr (JVal.dictGet rfs "EventSource") "aws:sns"
  | _ => false

/-- Spec-side combinator for the amended C5 claim: the first truthy
candidate, else the default. -/
def firstTruthy (cands : List JVal) (dflt : JVal) : JVal :=
  match cands with
  | [] => dflt
  | c :: rest => if c.truthy then c else firstTruthy rest dflt

/-- Spec-side transcription of the amended C5 claim for a direct-invocation
dict event: `task` is the first truthy of `task_name`, `task`,
`coordinator_id`, else `"Daily Coordinator"`; `status` is the event's
`status` when truthy, else `"updated"`; `details` is the first truthy of
`details`, `message`, else absent. -/
def claimDirectSummary (efs : List (String × JVal)) : Summary :=
  { task := firstTruthy [JVal.dictGet efs "task_name", JVal.dictGet efs "task",
      JVal.dictGet efs "coordinator_id"] (.jstr "Daily Coordinator"),
    status := firstTruthy [JVal.dictGet efs "status"] (.jstr "updated"),
    details := firstTruthy [JVal.dictGet efs "details", JVal.dictGet efs "message"]
      .jnull,
    subject := .jnull }

/-- Spec-side transcription of the amended C5 claim for a wrapped envelope:
subject and raw message come from the first notification-source record's
`Sns` payload (`sfs`); a message that JSON-decodes to a dict overrides
task, status and details, each by its first truthy candidate. -/
def claimSnsSummary (sfs : List (String × JVal)) (loads : String → Option JVal) :
    Summary :=
  let subject := JVal.dictGet sfs "Subject"
  let message := JVal.dictGet sfs "Message"
  let base : Summary := { initSummary with subject := subject, details := message }
  match message with
  | .jstr ms =>
    match loads ms with
    | some (.jobj dfs) =>
      { base with
        task := firstTruthy [JVal.dictGet dfs "task_name", JVal.dictGet dfs "task"]
          base.task,
        status := firstTruthy [JVal.dictGet dfs "status"] base.status,
        details := firstTruthy [JVal.dictGet dfs "details", JVal.dictGet dfs "message"]
          base.details }
    | _ => base
  | _ => base

end SlackPoster

/-! ## `src/lambda-whatsapp/whatsapp_sender.py` — chat-relay handler

`clientInit` is the outcome of `_get_twilio_client()` (a raised exception or
success); `send body recipient` is the outcome of
`client.messages.create(from_=..., to=recipient, body=body)` — a message SID
or a raised exception. -/

namespace Whatsapp

/-- Python `len(v)` (raises on values without a length). -/
def pyLen : JVal → Except String Nat
  | .jstr s => .ok s.length
  | .jarr xs => .ok xs.length
  | .jobj fs => .ok fs.length
  | _ => .error "TypeError: object has no len"

/-- Python iteration over a value with a length: list elements, string
characters, dict keys. -/
def iterElems : JVal → List JVal
  | .jarr xs => xs
  | .jstr s => s.toList.map (fun c => .jstr (String.mk [c]))
  | .jobj fs => fs.map (fun kv => .jstr kv.1)
  | _ => []

/-- `_format_whatsapp_message(event_data)`.  Raises (`AttributeError`) when
`event_data` is not a dict, when `status` is not a string
(`status.upper()`), or when `errors` is truthy without a length. -/
def _format_whatsapp_message (event_data : JVal) : Except String String :=
  match event_data with
  | .jobj fs =>
    let coordinator_id := JVal.dictGetD fs "coordinator_id" (.jstr "Unknown")
    let status := JVal.dictGetD fs "status" (.jstr "unknown")
    let tasks_processed := JVal.dictGetD fs "tasks_processed" (.jint 0)
    let errors := JVal.dictGetD fs "errors" (.jarr [])
    let timestamp := JVal.dictGetD fs "timestamp" (.jstr "")
    match status with
    -- the emoji-dict lookup {...}.get(status, ...) raises on an unhashable key
    | .jarr _ => .error "TypeError: unhashable type"
    | .jobj _ => .error "TypeError: unhashable type"
    | .jstr sstr =>
      let status_emoji :=
        if sstr == "success" then "✅"
        else if sstr == "failed" then "❌"
        else if sstr == "partial" then "⚠️"
        else "ℹ️"
      let base := [status_emoji ++ " *Daily Coordinator Update*", "",
        "*ID:* " ++ coordinator_id.pyStr,
        "*Status:* " ++ sstr.toUpper,
        "*Tasks:* " ++ tasks_processed.pyStr]
      let withErrors : Except String (List String) :=
        if errors.truthy then
          match pyLen errors with
          | .error e => .error e
          | .ok n =>
            let l1 := base ++ ["*Errors:* " ++ toString n]
            .ok (if n ≤ 3 then
                   l1 ++ (iterElems errors).map (fun err => "  • " ++ err.pyStr)
                 else l1)
        else .ok base
      match withErrors with
      | .error e => .error e
      | .ok ls =>
        let ls := if timestamp.truthy then ls ++ ["*Time:* " ++ timestamp.pyStr] else ls
        .ok (String.intercalate "\n" ls)
    | _ => .error "AttributeError"   -- status.upper() on a non-str status
  | _ => .error "AttributeError"     -- event_data.get on a non-dict

/-- `send_whatsapp_alert(event_data, recipient)`: client init, message
formatting, then the Twilio send; its `except` logs and re-raises. -/
def send_whatsapp_alert (clientInit : Except String Unit)
    (send : String → String → Except String String)
    (event_data : JVal) (recipient : String) : Except String String :=
  match clientInit with
  | .error e => .error e
  | .ok _ =>
    match _format_whatsapp_message event_data with
    | .error e => .error e
    | .ok body => send body recipient

/-- The WhatsApp-prefix normalization inside the send loop (the `.strip()`
happens earlier, in the recipients list comprehension). -/
def normalizeRecipient (r : String) : String :=
  if r.startsWith "whatsapp:" then r else "whatsapp:" ++ r

/-- The `for recipient in recipients` loop: one result entry per recipient;
a per-recipient exception becomes a `"failed"` entry and the loop continues.
Also returns the list of recipients a send was attempted for. -/
def sendLoop (clientInit : Except String Unit)
    (send : String → String → Except String String)
    (event_data : JVal) : List String → List JVal × List String
  | [] => ([], [])
  | r :: rest =>
    let recipient := normalizeRecipient r
    let entry : JVal :=
      match send_whatsapp_alert clientInit send event_data recipient with
      | .ok sid =>
        .jobj [("recipient", .jstr recipient), ("sid", .jstr sid),
               ("status", .jstr "sent")]
      | .error e =>
        .jobj [("recipient", .jstr recipient), ("error", .jstr e),
               ("status", .jstr "failed")]
    let tl := sendLoop clientInit send event_data rest
    (entry :: tl.1, recipient :: tl.2)

/-- The `Records` loop of the handler: the first `aws:sns` record's
`record["Sns"]["Message"]` is JSON-decoded (`{"message": raw}` on decode
failure); no matching record leaves `event_data = None`. -/
def findSnsEventData (loads : String → Option JVal) : List JVal → Except String JVal
  | [] => .ok .jnull
  | r :: rest =>
    match r with
    | .jobj rfs =>
      if JVal.eqStr (JVal.dictGet rfs "EventSource") "aws:sns" then
        match rfs.lookup "Sns" with
        | none => .error "KeyError: Sns"
        | some sns =>
          match sns with
          | .jobj sfs =>
            match sfs.lookup "Message" with
            | none => .error "KeyError: Message"
            | some msg =>
              match msg with
              | .jstr ms =>
                match loads ms with
                | some v => .ok v
                | none => .ok (.jobj [("message", .jstr ms)])
              | _ => .error "TypeError: the JSON object must be str"
          | _ => .error "TypeError: value is not subscriptable"
      else findSnsEventData loads rest
    | _ => .error "AttributeError"

/-- The event-data extraction at the top of `lambda_handler`:
`"Records" in event` selects the SNS path, otherwise `event_data = event`. -/
def extractEventData (event : JVal) (loads : String → Option JVal) :
    Except String JVal :=
  match event with
  | .jobj efs =>
    match efs.lookup "Records" with
    | some recs =>
      match recs with
      | .jarr records => findSnsEventData loads records
      | .jstr ms => if ms.isEmpty then .ok .jnull else .error "AttributeError"
      | .jobj ofs => if ofs.isEmpty then .ok .jnull else .error "AttributeError"
      | _ => .error "TypeError: not iterable"
    | none => .ok event
  -- `"Records" in event` on a non-dict: membership test or TypeError
  | .jstr s => if (s.splitOn "Records").length > 1 then .error "TypeError" else .ok event
  | .jarr xs => if xs.any (fun v => JVal.eqStr v "Records") then .error "TypeError" else .ok event
  | _ => .error "TypeError: argument is not iterable"

/-- The handler's response, with the attempted (normalized) recipients made
observable. -/
structure HandlerOut where
  statusCode : Nat
  body : JVal
  attempts : List String
  deriving Repr

/-- `lambda_handler(event, context)` of the WhatsApp sender.  `whatsappTo`
is the `WHATSAPP_TO` environment variable. -/
def lambda_handler (event : JVal) (loads : String → Option JVal)
    (whatsappTo : Option String) (clientInit : Except String Unit)
    (send : String → String → Except String String) : Except String HandlerOut :=
  match extractEventData event loads with
  | .error e => .error e
  | .ok event_data =>
    if !event_data.truthy then
      .ok { statusCode := 400, body := .jobj [("error", .jstr "No event data")],
            attempts := [] }
    else
      match whatsappTo with
      | none =>
        .ok { statusCode := 200,
              body := .jobj [("message", .jstr "WhatsApp not configured")],
              attempts := [] }
      | some wt =>
        if wt.isEmpty then
          .ok { statusCode := 200,
                body := .jobj [("message", .jstr "WhatsApp not configured")],
                attempts := [] }
        else
          let recipients := (wt.splitOn ",").map (fun s => s.trim)
          let lr := sendLoop clientInit send event_data recipients
          .ok { statusCode := 200,
                body := .jobj [("message", .jstr "WhatsApp alerts processed"),
                               ("results", .jarr lr.1)],
                attempts := lr.2 }

end Whatsapp

/-! ## `src/lambda/index.py` — primary coordination handler

Each AWS SDK call is an outcome oracle gathered in `CoordEnv`.  Every helper
(`get_secrets`, `save_state_to_dynamodb`, `upload_cache_to_s3`,
`publish_alert`) catches its own exceptions and returns normally, so the
`try` body of `coordinate_daily_tasks` is total; the `except` branch is kept
in the definitions to mirror the source.  The DynamoDB item / S3 object
payloads influence no control flow and no claim, so the put oracles are
plain outcomes. -/

namespace Index

/-- The outcomes of the external calls made during one run. -/
structure CoordEnv where
  secretsArn : Option String                    -- SECRETS_MANAGER_ARN
  secretFetch : Except String (Option String)   -- get_secret_value → SecretString?
  secretLoads : String → Except String JVal     -- json.loads of the SecretString
  putState1 : Except String Unit                -- first save_state put_item
  putState2 : Except String Unit                -- final save_state put_item
  putObject : Except String Unit                -- s3 put_object
  snsPublish : Except String Unit               -- sns publish

/-- `get_secrets()`: every exception (missing ARN, boto error, JSON error)
is caught and an empty dict returned; a response without `SecretString`
returns an empty dict too. -/
def get_secrets (arn : Option String) (fetch : Except String (Option String))
    (loads : String → Except String JVal) : JVal :=
  match arn with
  | none => .jobj []            -- None.split(':') raises; caught → {}
  | some _ =>
    match fetch with
    | .error _ => .jobj []      -- boto exception; caught → {}
    | .ok none => .jobj []      -- "Secrets not found in Secrets Manager"
    | .ok (some ss) =>
      match loads ss with
      | .error _ => .jobj []    -- json error; caught → {}
      | .ok v => v

/-- `save_state_to_dynamodb(...)`: True on success, False when the put
raised (the exception is caught inside). -/
def save_state_to_dynamodb (putItem : Except String Unit) : Bool :=
  match putItem with
  | .ok _ => true
  | .error _ => false

/-- `upload_cache_to_s3(...)`: True on success, False when the put raised. -/
def upload_cache_to_s3 (putObject : Except String Unit) : Bool :=
  match putObject with
  | .ok _ => true
  | .error _ => false

/-- `publish_alert(subject, message)`: True on success, False when the SNS
publish raised. -/
def publish_alert (pub : Except String Unit) : Bool :=
  match pub with
  | .ok _ => true
  | .error _ => false

/-- The `results` dict of `coordinate_daily_tasks`. -/
structure CoordResult where
  coordinator_id : String
  timestamp : String
  status : String
  tasks_processed : Nat
  errors : List String
  deriving Repr, DecidableEq

/-- One run's observable outcome: the returned `results` dict and the
`(subject, message)` pairs passed to `publish_alert`, in order. -/
structure CoordOutcome where
  results : CoordResult
  alerts : List (String × String)
  deriving Repr, DecidableEq

/-- The `try` body of `coordinate_daily_tasks`.  Every step is total (each
helper catches its own SDK exceptions), so the body always returns `.ok`;
the `Except` layer mirrors the source's `try`. -/
def coordinate_try (env : CoordEnv) (nowIso : String) : Except String CoordOutcome :=
  let coordinator_id := "daily-coordinator-001"
  let results0 : CoordResult :=
    { coordinator_id := coordinator_id, timestamp := nowIso,
      status := "success", tasks_processed := 0, errors := [] }
  let _secrets := get_secrets env.secretsArn env.secretFetch env.secretLoads
  let step1 :=
    if save_state_to_dynamodb env.putState1 then ((1 : Nat), ([] : List String))
    else (0, ["Failed to save state to DynamoDB"])
  let step2 :=
    if upload_cache_to_s3 env.putObject then ((1 : Nat), ([] : List String))
    else (0, ["Failed to upload cache to S3"])
  -- final state update; its Boolean result is discarded
  let _ := save_state_to_dynamodb env.putState2
  let results : CoordResult :=
    { results0 with tasks_processed := step1.1 + step2.1,
                    errors := step1.2 ++ step2.2 }
  let alert :=
    if results.errors.isEmpty then
      ("Daily Coordinator - Success",
       "Daily coordination completed successfully at " ++ nowIso)
    else
      ("Daily Coordinator - Partial Success",
       "Daily Coordinator completed with " ++ toString results.errors.length
         ++ " errors:\n" ++ String.intercalate "\n" results.errors)
  let _ := publish_alert env.snsPublish
  .ok { results := results, alerts := [alert] }

/-- `coordinate_daily_tasks()`: the `except` branch sets `status := "failed"`,
appends the exception text, publishes a failure alert, and still returns
normally.  (It is dead code here because `coordinate_try` is total.) -/
def coordinate_daily_tasks (env : CoordEnv) (nowIso : String) : CoordOutcome :=
  match coordinate_try env nowIso with
  | .ok o => o
  | .error e =>
    let results : CoordResult :=
      { coordinator_id := "daily-coordinator-001", timestamp := nowIso,
        status := "failed", tasks_processed := 0, errors := [e] }
    { results := results,
      alerts := [("Daily Coordinator - Failed", "Error: " ++ e)] }

/-- `json.dumps(results)` kept structural. -/
def CoordResult.toJVal (r : CoordResult) : JVal :=
  .jobj [("coordinator_id", .jstr r.coordinator_id),
         ("timestamp", .jstr r.timestamp),
         ("status", .jstr r.status),
         ("tasks_processed", .jint r.tasks_processed),
         ("errors", .jarr (r.errors.map JVal.jstr))]

/-- The handler's HTTP-style response. -/
structure LambdaResponse where
  statusCode : Nat
  body : JVal
  deriving Repr

/-- `lambda_handler(event, context)` of the coordinator: `try` around
`coordinate_daily_tasks()` and the 200 response; the `except` branch
builds the 500 response.  `coordinate_daily_tasks` is a total function,
so the wrapped computation is always `.ok`. -/
def lambda_handler (env : CoordEnv) (nowIso : String) : LambdaResponse :=
  match (Except.ok (coordinate_daily_tasks env nowIso) : Except String CoordOutcome) with
  | .ok o => { statusCode := 200, body := o.results.toJVal }
  | .error e =>
    { statusCode := 500,
      body := .jobj [("error", .jstr e), ("timestamp", .jstr nowIso)] }

end Index

/-! ## Helper lemmas -/

namespace CloudFunction

theorem lookup_setEntry_self {α : Type} (l : List (String × α)) (k : String) (v : α) :
    (setEntry l k v).lookup k = some v := by
  induction l with
  | nil => simp [setEntry, List.lookup]
  | cons hd tl ih =>
    obtain ⟨k0, v0⟩ := hd
    by_cases h : k0 = k
    · subst h; simp [setEntry, List.lookup]
    · have hbeq : (k == k0) = false :=
        beq_eq_false_iff_ne.mpr (fun hh => h hh.symm)
      simp [setEntry, h, List.lookup, hbeq, ih]

theorem lookup_setEntry_of_ne {α : Type} (l : List (String × α)) (k k2 : String) (v : α)
    (h : k2 ≠ k) : (setEntry l k v).lookup k2 = l.lookup k2 := by
  have hbeq : (k2 == k) = false := beq_eq_false_iff_ne.mpr h
  induction l with
  | nil => simp [setEntry, List.lookup, hbeq]
  | cons hd tl ih =>
    obtain ⟨k0, v0⟩ := hd
    by_cases h0 : k0 = k
    · subst h0
      simp [setEntry, List.lookup, hbeq]
    · simp only [setEntry, h0, if_false, List.lookup, ih]

theorem mergeCoordinatorDoc_total_tasks (old : Doc) (ls : JVal) (tp : Int) :
    (mergeCoordinatorDoc old ls tp).lookup "total_tasks" =
      some (.fjson (.jint (match old.lookup "total_tasks" with
        | some (.fjson (.jint m)) => m + tp
        | _ => tp))) := by
  unfold mergeCoordinatorDoc
  rw [lookup_setEntry_self]

theorem mergeCoordinatorDoc_last_status (old : Doc) (ls : JVal) (tp : Int) :
    (mergeCoordinatorDoc old ls tp).lookup "last_status" = some (.fjson ls) := by
  unfold mergeCoordinatorDoc
  rw [lookup_setEntry_of_ne _ _ _ _ (by decide),
      lookup_setEntry_of_ne _ _ _ _ (by decide), lookup_setEntry_self]

theorem mergeCoordinatorDoc_last_update (old : Doc) (ls : JVal) (tp : Int) :
    (mergeCoordinatorDoc old ls tp).lookup "last_update" = some .fserver := by
  unfold mergeCoordinatorDoc
  rw [lookup_setEntry_of_ne _ _ _ _ (by decide), lookup_setEntry_self]

theorem mergeCoordinatorDoc_other (old : Doc) (ls : JVal) (tp : Int) (k : String)
    (h1 : k ≠ "last_status") (h2 : k ≠ "last_update") (h3 : k ≠ "total_tasks") :
    (mergeCoordinatorDoc old ls tp).lookup k = old.lookup k := by
  unfold mergeCoordinatorDoc
  rw [lookup_setEntry_of_ne _ _ _ _ h3, lookup_setEntry_of_ne _ _ _ _ h2,
      lookup_setEntry_of_ne _ _ _ _ h1]

end CloudFunction

/-! ## Theorems for the claims -/

/-- C1: for every wrapped handler and every event, the decorator returned by
`lambda_handler_with_pubsub` returns exactly the wrapped handler's result
unchanged, and it attempts a second-bus publish only when that result is a
dict with `statusCode == 200`.  Exceptions during the publish block
(including body-JSON decode failures) are swallowed: the wrapper is a total
function and its returned value never depends on the `loads`/`publish`
oracles. -/
theorem C1_decorator_transparent
    (original_handler : JVal → JVal) (loads : JVal → Except String JVal)
    (publish : JVal → Except String String) (event : JVal) :
    (GcpPubsub.lambda_handler_with_pubsub original_handler loads publish event).1
      = original_handler event ∧
    ((GcpPubsub.lambda_handler_with_pubsub original_handler loads publish event).2 ≠ [] →
      GcpPubsub.isSuccessDict (original_handler event) = true) := by
  unfold GcpPubsub.lambda_handler_with_pubsub GcpPubsub.wrapperStep GcpPubsub.isSuccessDict
  cases original_handler event with
  | jobj fs =>
    by_cases h200 : JVal.eqInt (JVal.dictGet fs "statusCode") 200
    · simp only [h200, if_true]
      cases loads (JVal.dictGetD fs "body" (.jstr "\x7b\x7d")) with
      | error e => simp
      | ok body => cases hp : publish body <;> simp [hp]
    · simp [h200]
  | jnull => simp
  | jbool b => simp
  | jint n => simp
  | jstr s => simp
  | jarr xs => simp

/-- Witness for C1: a handler returning a 200 dict, a decodable body, and a
failing publish — the result is returned unchanged and the publish condition
held. -/
theorem C1_decorator_transparent_witness :
    (GcpPubsub.lambda_handler_with_pubsub
        (fun _ => .jobj [("statusCode", .jint 200), ("body", .jstr "x")])
        (fun _ => .ok (.jobj [("tasks_processed", .jint 2)]))
        (fun _ => .error "publish down") .jnull).1
      = .jobj [("statusCode", .jint 200), ("body", .jstr "x")] ∧
    GcpPubsub.isSuccessDict (.jobj [("statusCode", .jint 200), ("body", .jstr "x")]) = true := by
  refine ⟨(C1_decorator_transparent _ _ _ _).1, (C1_decorator_transparent
    (fun _ => .jobj [("statusCode", .jint 200), ("body", .jstr "x")])
    (fun _ => .ok (.jobj [("tasks_processed", .jint 2)]))
    (fun _ => .error "publish down") .jnull).2 ?_⟩
  intro hc
  exact List.noConfusion hc

/-- C7: in every run of `coordinate_daily_tasks` (its `try` body is total, so
no exception ever escapes it), `tasks_processed` counts exactly the successful
storage operations (DynamoDB state save, S3 cache upload), `errors` holds one
message per failed operation, the two add up to 2, and exactly one alert is
published whose subject reflects whether `errors` is empty. -/
theorem C7_coordinate_counts (env : Index.CoordEnv) (nowIso : String) :
    (Index.coordinate_try env nowIso).isOk = true ∧
    (Index.coordinate_daily_tasks env nowIso).results.tasks_processed =
      ((if env.putState1.isOk then 1 else 0) + (if env.putObject.isOk then 1 else 0)) ∧
    (Index.coordinate_daily_tasks env nowIso).results.errors =
      ((if env.putState1.isOk then [] else ["Failed to save state to DynamoDB"]) ++
       (if env.putObject.isOk then [] else ["Failed to upload cache to S3"])) ∧
    (Index.coordinate_daily_tasks env nowIso).results.tasks_processed +
      (Index.coordinate_daily_tasks env nowIso).results.errors.length = 2 ∧
    ∃ msg, (Index.coordinate_daily_tasks env nowIso).alerts =
      [((if (Index.coordinate_daily_tasks env nowIso).results.errors.isEmpty
          then "Daily Coordinator - Success"
          else "Daily Coordinator - Partial Success"), msg)] := by
  obtain ⟨arn, sf, sl, p1, p2, po, sp⟩ := env
  cases p1 <;> cases po <;>
    simp [Index.coordinate_daily_tasks, Index.coordinate_try,
      Index.save_state_to_dynamodb, Index.upload_cache_to_s3, Except.isOk,
      Except.toBool]

/-- C8: the coordinator's entry point always returns `statusCode` 200 with
the coordination results serialized in the body, because
`coordinate_daily_tasks` is a total function (its `except` branch catches
everything and returns normally), leaving the handler's 500 branch
unreachable. -/
theorem C8_handler_always_200 (env : Index.CoordEnv) (nowIso : String) :
    (Index.lambda_handler env nowIso).statusCode = 200 ∧
    (Index.lambda_handler env nowIso).body =
      Index.CoordResult.toJVal (Index.coordinate_daily_tasks env nowIso).results :=
  ⟨rfl, rfl⟩

/-- C9: the `status` field of the result stays `"success"` for every oracle
outcome — in particular when both storage operations fail and `errors` is
non-empty — so partial failure is indistinguishable from full success by
`status` alone; `"failed"` would require an exception to escape the `try`
body, which never happens. -/
theorem C9_status_success_despite_errors :
    (∀ (env : Index.CoordEnv) (nowIso : String),
      (Index.coordinate_daily_tasks env nowIso).results.status = "success") ∧
    (Index.coordinate_daily_tasks
        ⟨none, .error "boom", fun _ => .error "boom", .error "ddb down", .ok (),
         .error "s3 down", .ok ()⟩ "T").results.errors ≠ [] ∧
    (Index.coordinate_daily_tasks
        ⟨none, .error "boom", fun _ => .error "boom", .error "ddb down", .ok (),
         .error "s3 down", .ok ()⟩ "T").results.status = "success" := by
  refine ⟨?_, ?_, rfl⟩
  · intro env nowIso
    obtain ⟨arn, sf, sl, p1, p2, po, sp⟩ := env
    cases p1 <;> cases po <;> rfl
  · intro h
    exact List.noConfusion h

namespace SlackPoster

/-- A successful `_load_webhook_url` call leaves the returned webhook in the
cache, and that cached value is truthy. -/
theorem load_success_cache (sn : Option String) (key : String)
    (gs : Except String (Option String)) (loads : String → Option JVal)
    (cache : Option JVal) (w : JVal)
    (h : (_load_webhook_url sn key gs loads cache).result = .ok w) :
    (_load_webhook_url sn key gs loads cache).cache = some w ∧ w.truthy = true := by
  unfold _load_webhook_url at h ⊢
  cases hc : cacheHit cache with
  | true =>
    simp only [hc, if_true] at h ⊢
    cases cache with
    | none => simp [cacheHit] at hc
    | some w0 =>
      simp only [Option.getD] at h
      have hw : w0 = w := Except.ok.inj h
      subst hw
      exact ⟨rfl, by simpa [cacheHit] using hc⟩
  | false =>
    simp only [hc, Bool.false_eq_true, if_false] at h ⊢
    unfold loadFreshWebhook at h ⊢
    cases hsn : envMissing sn with
    | true => simp only [hsn, if_true] at h; simp at h
    | false =>
      simp only [hsn, Bool.false_eq_true, if_false] at h ⊢
      cases gs with
      | error e => simp at h
      | ok oss =>
        cases oss with
        | none => simp at h
        | some ss =>
          cases hss : ss.isEmpty with
          | true => simp only [hss, if_true] at h; simp at h
          | false =>
            simp only [hss, Bool.false_eq_true, if_false] at h ⊢
            cases htr : (parseWebhook key loads ss).truthy with
            | true =>
              simp only [htr, if_true] at h ⊢
              have hw : parseWebhook key loads ss = w := Except.ok.inj h
              subst hw
              exact ⟨rfl, htr⟩
            | false =>
              simp only [htr, Bool.false_eq_true, if_false] at h
              simp at h

end SlackPoster

/-- C4: after one successful `_load_webhook_url` call, every later call in
the same process returns the same webhook URL with zero secret-store
fetches, whatever the environment or the secret-store oracle does in the
meantime — the fetch-then-read is idempotent for the life of the process. -/
theorem C4_webhook_cached_once (sn : Option String) (key : String)
    (gs : Except String (Option String)) (loads : String → Option JVal)
    (cache : Option JVal) (w : JVal)
    (h : (SlackPoster._load_webhook_url sn key gs loads cache).result = .ok w) :
    ∀ (sn2 : Option String) (key2 : String) (gs2 : Except String (Option String))
      (loads2 : String → Option JVal),
      SlackPoster._load_webhook_url sn2 key2 gs2 loads2
          ((SlackPoster._load_webhook_url sn key gs loads cache).cache) =
        { result := .ok w,
          cache := (SlackPoster._load_webhook_url sn key gs loads cache).cache,
          fetches := 0 } := by
  obtain ⟨hcache, htr⟩ := SlackPoster.load_success_cache sn key gs loads cache w h
  intro sn2 key2 gs2 loads2
  rw [hcache]
  unfold SlackPoster._load_webhook_url
  simp [SlackPoster.cacheHit, htr]

/-- Witness for C4: a first call that fetches the secret (a plain-string
secret) succeeds; a second call with a failing secret-store oracle still
returns the same URL with zero fetches. -/
theorem C4_webhook_cached_once_witness :
    SlackPoster._load_webhook_url none "k" (.error "no call") (fun _ => none)
        ((SlackPoster._load_webhook_url (some "sec") "k" (.ok (some "https:hook"))
          (fun _ => none) none).cache) =
      { result := .ok (.jstr "https:hook"),
        cache := (SlackPoster._load_webhook_url (some "sec") "k" (.ok (some "https:hook"))
          (fun _ => none) none).cache,
        fetches := 0 } :=
  C4_webhook_cached_once (some "sec") "k" (.ok (some "https:hook")) (fun _ => none) none
    (.jstr "https:hook") rfl none "k" (.error "no call") (fun _ => none)

namespace Whatsapp

/-- Characterization of the send loop: one result entry per recipient,
`"sent"`/`"failed"` according to the per-recipient outcome, and a send
attempted for every (normalized) recipient. -/
theorem sendLoop_spec (clientInit : Except String Unit)
    (send : String → String → Except String String) (event_data : JVal)
    (rs : List String) :
    sendLoop clientInit send event_data rs =
      (rs.map (fun r =>
        match send_whatsapp_alert clientInit send event_data (normalizeRecipient r) with
        | .ok sid => .jobj [("recipient", .jstr (normalizeRecipient r)),
            ("sid", .jstr sid), ("status", .jstr "sent")]
        | .error e => .jobj [("recipient", .jstr (normalizeRecipient r)),
            ("error", .jstr e), ("status", .jstr "failed")]),
       rs.map normalizeRecipient) := by
  induction rs with
  | nil => rfl
  | cons r rest ih => simp [sendLoop, ih]

end Whatsapp

/-- C6: with event data present (truthy) and a configured recipient list,
the chat-relay handler attempts a send to every configured recipient
(comma-split, trimmed, normalized to the `whatsapp:` prefix) and records a
per-recipient `sent` (with SID) or `failed` (with error text) entry; one
recipient's failure does not affect the entries of the others. -/
theorem C6_whatsapp_all_recipients (event : JVal) (loads : String → Option JVal)
    (wt : String) (clientInit : Except String Unit)
    (send : String → String → Except String String) (event_data : JVal)
    (hed : Whatsapp.extractEventData event loads = .ok event_data)
    (htr : event_data.truthy = true) (hwt : wt.isEmpty = false) :
    Whatsapp.lambda_handler event loads (some wt) clientInit send =
      .ok { statusCode := 200,
            body := .jobj [("message", .jstr "WhatsApp alerts processed"),
              ("results", .jarr ((wt.splitOn ",").map (fun s =>
                match Whatsapp.send_whatsapp_alert clientInit send event_data
                    (Whatsapp.normalizeRecipient s.trim) with
                | .ok sid => .jobj [("recipient",
                    .jstr (Whatsapp.normalizeRecipient s.trim)),
                    ("sid", .jstr sid), ("status", .jstr "sent")]
                | .error e => .jobj [("recipient",
                    .jstr (Whatsapp.normalizeRecipient s.trim)),
                    ("error", .jstr e), ("status", .jstr "failed")])))],
            attempts := (wt.splitOn ",").map
              (fun s => Whatsapp.normalizeRecipient s.trim) } := by
  unfold Whatsapp.lambda_handler
  rw [hed]
  simp only [htr, Bool.not_true, Bool.false_eq_true, if_false, hwt,
    Whatsapp.sendLoop_spec, List.map_map]
  simp only [Function.comp_def]

/-- Witness for C6: two recipients, the second send fails; the theorem
instantiates to a 200 response listing a `sent` and a `failed` entry. -/
theorem C6_whatsapp_all_recipients_witness :
    Whatsapp.lambda_handler (.jobj [("status", .jstr "ok")]) (fun _ => none)
        (some "a, b") (.ok ())
        (fun body r => if r = "whatsapp:b" then .error "bad number" else .ok "SID1") =
      .ok { statusCode := 200,
            body := .jobj [("message", .jstr "WhatsApp alerts processed"),
              ("results", .jarr (("a, b".splitOn ",").map (fun s =>
                match Whatsapp.send_whatsapp_alert (.ok ())
                    (fun body r => if r = "whatsapp:b" then .error "bad number" else .ok "SID1")
                    (.jobj [("status", .jstr "ok")])
                    (Whatsapp.normalizeRecipient s.trim) with
                | .ok sid => .jobj [("recipient",
                    .jstr (Whatsapp.normalizeRecipient s.trim)),
                    ("sid", .jstr sid), ("status", .jstr "sent")]
                | .error e => .jobj [("recipient",
                    .jstr (Whatsapp.normalizeRecipient s.trim)),
                    ("error", .jstr e), ("status", .jstr "failed")])))],
            attempts := ("a, b".splitOn ",").map
              (fun s => Whatsapp.normalizeRecipient s.trim) } :=
  C6_whatsapp_all_recipients (.jobj [("status", .jstr "ok")]) (fun _ => none)
    "a, b" (.ok ())
    (fun body r => if r = "whatsapp:b" then .error "bad number" else .ok "SID1")
    (.jobj [("status", .jstr "ok")]) rfl rfl rfl

/-- C10: with event data present and recipients configured, the chat-relay
handler returns `statusCode` 200 even when every per-recipient send raises
(here: the Twilio client initialization raises, so every
`send_whatsapp_alert` call raises); the exceptions surface only as
`"failed"` entries in the body's results list, never as a non-200 status or
a propagated exception. -/
theorem C10_whatsapp_200_on_failures (event : JVal) (loads : String → Option JVal)
    (wt : String) (e : String) (send : String → String → Except String String)
    (event_data : JVal)
    (hed : Whatsapp.extractEventData event loads = .ok event_data)
    (htr : event_data.truthy = true) (hwt : wt.isEmpty = false) :
    Whatsapp.lambda_handler event loads (some wt) (.error e) send =
      .ok { statusCode := 200,
            body := .jobj [("message", .jstr "WhatsApp alerts processed"),
              ("results", .jarr ((wt.splitOn ",").map (fun s =>
                .jobj [("recipient", .jstr (Whatsapp.normalizeRecipient s.trim)),
                       ("error", .jstr e), ("status", .jstr "failed")])))],
            attempts := (wt.splitOn ",").map
              (fun s => Whatsapp.normalizeRecipient s.trim) } := by
  unfold Whatsapp.lambda_handler
  rw [hed]
  simp only [htr, Bool.not_true, Bool.false_eq_true, if_false, hwt,
    Whatsapp.sendLoop_spec, List.map_map, Whatsapp.send_whatsapp_alert]
  simp only [Function.comp_def]

/-- Witness for C10: a failing Twilio client with two configured recipients
still yields a 200 response whose results are all `failed`. -/
theorem C10_whatsapp_200_on_failures_witness :
    Whatsapp.lambda_handler (.jobj [("status", .jstr "ok")]) (fun _ => none)
        (some "a,b") (.error "twilio down") (fun _ _ => .ok "S") =
      .ok { statusCode := 200,
            body := .jobj [("message", .jstr "WhatsApp alerts processed"),
              ("results", .jarr (("a,b".splitOn ",").map (fun s =>
                .jobj [("recipient", .jstr (Whatsapp.normalizeRecipient s.trim)),
                       ("error", .jstr "twilio down"), ("status", .jstr "failed")])))],
            attempts := ("a,b".splitOn ",").map
              (fun s => Whatsapp.normalizeRecipient s.trim) } :=
  C10_whatsapp_200_on_failures (.jobj [("status", .jstr "ok")]) (fun _ => none)
    "a,b" "twilio down" (fun _ _ => .ok "S") (.jobj [("status", .jstr "ok")]) rfl rfl rfl

namespace SlackPoster

/-- The `Records` loop agrees with "first record that satisfies
`isSnsRecord`": when every record is a dict and the found record's `Sns`
value is a dict, the loop returns the claim's envelope summary; with no
matching record it returns the defaults. -/
theorem extractFromRecords_find (loads : String → Option JVal)
    (records : List JVal) (hdicts : ∀ r ∈ records, r.isDict = true) :
    (∀ rfs sfs, records.find? isSnsRecord = some (.jobj rfs) →
      JVal.dictGetD rfs "Sns" (.jobj []) = .jobj sfs →
      extractFromRecords loads initSummary records = .ok (claimSnsSummary sfs loads)) ∧
    (records.find? isSnsRecord = none →
      extractFromRecords loads initSummary records = .ok initSummary) := by
  induction records with
  | nil =>
    constructor
    · intro rfs sfs hfind
      simp at hfind
    · intro _
      rfl
  | cons r rest ih =>
    have hr : r.isDict = true := hdicts r (List.mem_cons_self r rest)
    have hrest : ∀ x ∈ rest, x.isDict = true :=
      fun x hx => hdicts x (List.mem_cons_of_mem r hx)
    obtain ⟨ih1, ih2⟩ := ih hrest
    cases r with
    | jobj rfs0 =>
      cases hsns : isSnsRecord (.jobj rfs0) with
      | true =>
        have hes : JVal.eqStr (JVal.dictGet rfs0 "EventSource") "aws:sns" = true := by
          simpa [isSnsRecord] using hsns
        constructor
        · intro rfs sfs hfind hsfs
          rw [List.find?_cons_of_pos _ hsns] at hfind
          have hrfs : rfs0 = rfs := JVal.jobj.inj (Option.some.inj hfind)
          subst hrfs
          simp only [extractFromRecords, hes, if_true, hsfs, JVal.pyGet,
            claimSnsSummary]
          cases hm : JVal.dictGet sfs "Message" with
          | jstr ms =>
            cases hl : loads ms with
            | some v => cases v <;> simp [hl, JVal.pyOr, firstTruthy]
            | none => simp [hl]
          | jnull => simp
          | jbool b => simp
          | jint n => simp
          | jarr xs => simp
          | jobj ofs => simp
        · intro hfind
          rw [List.find?_cons_of_pos _ hsns] at hfind
          exact absurd hfind (by simp)
      | false =>
        have hes : JVal.eqStr (JVal.dictGet rfs0 "EventSource") "aws:sns" = false := by
          simpa [isSnsRecord] using hsns
        have hneg : ¬ (isSnsRecord (JVal.jobj rfs0) = true) := by simp [hsns]
        constructor
        · intro rfs sfs hfind hsfs
          rw [List.find?_cons_of_neg _ hneg] at hfind
          have hrec := ih1 rfs sfs hfind hsfs
          simp only [extractFromRecords, hes, Bool.false_eq_true, if_false]
          exact hrec
        · intro hfind
          rw [List.find?_cons_of_neg _ hneg] at hfind
          have hrec := ih2 hfind
          simp only [extractFromRecords, hes, Bool.false_eq_true, if_false]
          exact hrec
    | jnull => simp [JVal.isDict] at hr
    | jbool b => simp [JVal.isDict] at hr
    | jint n => simp [JVal.isDict] at hr
    | jstr s => simp [JVal.isDict] at hr
    | jarr xs => simp [JVal.isDict] at hr

end SlackPoster

/-- C5 counterexample: on the direct-invocation event `{"task_name": ""}`
the key `task_name` is present, so the claim ("the first present of
`task_name`, `task`, `coordinator_id`") demands `task = ""`; the code
instead skips the falsy value and returns the default
`"Daily Coordinator"`. -/
theorem C5_counterexample :
    SlackPoster._extract_summary (.jobj [("task_name", .jstr "")]) (fun _ => none)
      = .ok { task := .jstr "Daily Coordinator", status := .jstr "updated",
              details := .jnull, subject := .jnull } ∧
    (JVal.jstr "Daily Coordinator") ≠ (.jstr "") := by
  refine ⟨rfl, ?_⟩
  intro h
  injection h with h2
  exact absurd h2 (by decide)

/-- C5 (amended): for a direct-invocation dict event without `Records`,
`_extract_summary` returns the summary whose `task` is the first truthy of
`task_name`, `task`, `coordinator_id` (default `"Daily Coordinator"`),
whose `status` is the event's `status` when truthy (default `"updated"`),
and whose `details` is the first truthy of `details`, `message` (else
absent); for a wrapped envelope of dict records it takes `Subject` and
`Message` from the first notification-source record's `Sns` dict,
JSON-decoding the message when possible to override `task`, `status` and
`details`; with no such record the defaults are returned. -/
theorem C5_amended_extract (efs : List (String × JVal)) (loads : String → Option JVal) :
    (efs.lookup "Records" = none →
      SlackPoster._extract_summary (.jobj efs) loads
        = .ok (SlackPoster.claimDirectSummary efs)) ∧
    (∀ records rfs sfs,
      efs.lookup "Records" = some (.jarr records) →
      (∀ r ∈ records, r.isDict = true) →
      records.find? SlackPoster.isSnsRecord = some (.jobj rfs) →
      JVal.dictGetD rfs "Sns" (.jobj []) = .jobj sfs →
      SlackPoster._extract_summary (.jobj efs) loads
        = .ok (SlackPoster.claimSnsSummary sfs loads)) ∧
    (∀ records,
      efs.lookup "Records" = some (.jarr records) →
      (∀ r ∈ records, r.isDict = true) →
      records.find? SlackPoster.isSnsRecord = none →
      SlackPoster._extract_summary (.jobj efs) loads = .ok SlackPoster.initSummary) := by
  refine ⟨?_, ?_, ?_⟩
  · intro hrec
    unfold SlackPoster._extract_summary
    simp only [hrec]
    simp [SlackPoster.claimDirectSummary, SlackPoster.firstTruthy, JVal.pyOr,
      SlackPoster.initSummary]
  · intro records rfs sfs hrec hdicts hfind hsfs
    unfold SlackPoster._extract_summary
    simp only [hrec]
    exact (SlackPoster.extractFromRecords_find loads records hdicts).1 rfs sfs hfind hsfs
  · intro records hrec hdicts hfind
    unfold SlackPoster._extract_summary
    simp only [hrec]
    exact (SlackPoster.extractFromRecords_find loads records hdicts).2 hfind

/-- Witness for the amended C5 at a concrete direct event: `task` comes from
the truthy `task` key, `status` from the event. -/
theorem C5_amended_extract_witness :
    SlackPoster._extract_summary
        (.jobj [("task", .jstr "t1"), ("status", .jstr "done")]) (fun _ => none)
      = .ok (SlackPoster.claimDirectSummary
          [("task", .jstr "t1"), ("status", .jstr "done")]) :=
  (C5_amended_extract [("task", .jstr "t1"), ("status", .jstr "done")]
    (fun _ => none)).1 rfl

/-- A value with `isDict` true is a `jobj`. -/
theorem JVal.isDict_exists {v : JVal} (h : v.isDict = true) :
    ∃ fs, v = .jobj fs := by
  cases v with
  | jobj fs => exact ⟨fs, rfl⟩
  | jnull => simp [JVal.isDict] at h
  | jbool b => simp [JVal.isDict] at h
  | jint n => simp [JVal.isDict] at h
  | jstr s => simp [JVal.isDict] at h
  | jarr xs => simp [JVal.isDict] at h

/-- C2 counterexample: the merge write to the per-coordinator document does
not leave fields other than the counter untouched — at this input it
overwrites `last_status` (from `"old"` to `"success"`). -/
theorem C2_counterexample :
    (Except.map (fun st => ((st.coordinators.lookup "c1").getD []).lookup "last_status")
      (CloudFunction.pubsub_to_firestore ⟨some "m", none⟩
        (fun _ => .ok (.jobj [("coordinator_id", .jstr "c1"), ("status", .jstr "success"),
          ("tasks_processed", .jint 2)]))
        "T" 100 (.ok ()) (.ok ())
        ⟨[], [("c1", [("last_status", .fjson (.jstr "old")),
                      ("total_tasks", .fjson (.jint 5))])]⟩))
      = .ok (some (.fjson (.jstr "success"))) ∧
    ((([(("c1" : String), [(("last_status" : String), CloudFunction.FsVal.fjson (.jstr "old")),
        ("total_tasks", CloudFunction.FsVal.fjson (.jint 5))])]).lookup "c1").getD
        []).lookup "last_status" = some (.fjson (.jstr "old")) ∧
    (JVal.jstr "success") ≠ (.jstr "old") := by
  refine ⟨rfl, rfl, ?_⟩
  intro h
  injection h with h2
  exact absurd h2 (by decide)

/-- C2 (amended): for every event whose payload decodes to a dict (with a
string coordinator id and an integer `tasks_processed`, as the coordinator
produces) and whose attribute map is a dict, the document-sync handler
writes one record to the `tasks` collection under the id
`<coordinator_id>_<epoch seconds>`, and performs a merge write to the
per-coordinator document that increments `total_tasks` by the payload's
`tasks_processed` (defaulting to 0 via the lookup default), sets
`last_status` to the payload's `status` and `last_update` to the server
timestamp, and leaves every other field of that document untouched. -/
theorem C2_amended_merge (event : CloudFunction.PubSubEvent)
    (loads : String → Except String JVal) (nowIso : String) (nowEpoch : Int)
    (st : CloudFunction.FsState) (d : String) (pfs : List (String × JVal))
    (cid : String) (tp : Int)
    (hd : event.data = some d)
    (hl : loads d = .ok (.jobj pfs))
    (hcid : JVal.dictGetD pfs "coordinator_id" (.jstr "unknown") = .jstr cid)
    (htp : JVal.dictGetD pfs "tasks_processed" (.jint 0) = .jint tp)
    (hattr : (event.attributes.getD (.jobj [])).isDict = true) :
    ∃ taskDoc coordDoc st1,
      CloudFunction.pubsub_to_firestore event loads nowIso nowEpoch (.ok ()) (.ok ()) st
        = .ok st1 ∧
      st1.tasks = CloudFunction.setEntry st.tasks (cid ++ "_" ++ toString nowEpoch) taskDoc ∧
      st1.coordinators = CloudFunction.setEntry st.coordinators cid coordDoc ∧
      coordDoc.lookup "total_tasks" = some (.fjson (.jint
        (match ((st.coordinators.lookup cid).getD []).lookup "total_tasks" with
         | some (.fjson (.jint m)) => m + tp
         | _ => tp))) ∧
      coordDoc.lookup "last_status" = some (.fjson (JVal.dictGet pfs "status")) ∧
      coordDoc.lookup "last_update" = some CloudFunction.FsVal.fserver ∧
      (∀ k, k ≠ "last_status" → k ≠ "last_update" → k ≠ "total_tasks" →
        coordDoc.lookup k = ((st.coordinators.lookup cid).getD []).lookup k) := by
  obtain ⟨afs, hav⟩ := JVal.isDict_exists hattr
  unfold CloudFunction.pubsub_to_firestore
  simp only [hd, hl, hav, hcid, htp, JVal.pyGetD, JVal.pyStr]
  refine ⟨_, _, _, rfl, rfl, rfl, ?_, ?_, ?_, ?_⟩
  · exact CloudFunction.mergeCoordinatorDoc_total_tasks _ _ _
  · exact CloudFunction.mergeCoordinatorDoc_last_status _ _ _
  · exact CloudFunction.mergeCoordinatorDoc_last_update _ _ _
  · intro k h1 h2 h3
    exact CloudFunction.mergeCoordinatorDoc_other _ _ _ k h1 h2 h3

/-- Witness for the amended C2 at a concrete event: payload
`{"coordinator_id": "c1", "status": "success", "tasks_processed": 2}`
against a state whose `c1` document holds `last_status = "old"` and
`total_tasks = 5`. -/
theorem C2_amended_merge_witness :
    ∃ taskDoc coordDoc st1,
      CloudFunction.pubsub_to_firestore ⟨some "m", none⟩
          (fun _ => .ok (.jobj [("coordinator_id", .jstr "c1"), ("status", .jstr "success"),
            ("tasks_processed", .jint 2)]))
          "T" 100 (.ok ()) (.ok ())
          ⟨[], [("c1", [("last_status", .fjson (.jstr "old")),
                        ("total_tasks", .fjson (.jint 5))])]⟩
        = .ok st1 ∧
      st1.tasks = CloudFunction.setEntry
        (⟨[], [("c1", [("last_status", .fjson (.jstr "old")),
                       ("total_tasks", .fjson (.jint 5))])]⟩ :
          CloudFunction.FsState).tasks ("c1" ++ "_" ++ toString (100 : Int)) taskDoc ∧
      st1.coordinators = CloudFunction.setEntry
        (⟨[], [("c1", [("last_status", .fjson (.jstr "old")),
                       ("total_tasks", .fjson (.jint 5))])]⟩ :
          CloudFunction.FsState).coordinators "c1" coordDoc ∧
      coordDoc.lookup "total_tasks" = some (.fjson (.jint
        (match (((⟨[], [("c1", [("last_status", .fjson (.jstr "old")),
                       ("total_tasks", .fjson (.jint 5))])]⟩ :
            CloudFunction.FsState).coordinators.lookup "c1").getD []).lookup "total_tasks" with
         | some (.fjson (.jint m)) => m + 2
         | _ => 2))) ∧
      coordDoc.lookup "last_status" = some (.fjson (JVal.dictGet
        [("coordinator_id", .jstr "c1"), ("status", .jstr "success"),
         ("tasks_processed", .jint 2)] "status")) ∧
      coordDoc.lookup "last_update" = some CloudFunction.FsVal.fserver ∧
      (∀ k, k ≠ "last_status" → k ≠ "last_update" → k ≠ "total_tasks" →
        coordDoc.lookup k = (((⟨[], [("c1", [("last_status", .fjson (.jstr "old")),
                       ("total_tasks", .fjson (.jint 5))])]⟩ :
            CloudFunction.FsState).coordinators.lookup "c1").getD []).lookup k) :=
  C2_amended_merge ⟨some "m", none⟩
    (fun _ => .ok (.jobj [("coordinator_id", .jstr "c1"), ("status", .jstr "success"),
      ("tasks_processed", .jint 2)]))
    "T" 100
    ⟨[], [("c1", [("last_status", .fjson (.jstr "old")),
                  ("total_tasks", .fjson (.jint 5))])]⟩
    "m" [("coordinator_id", .jstr "c1"), ("status", .jstr "success"),
         ("tasks_processed", .jint 2)] "c1" 2 rfl rfl rfl rfl rfl

/-- C3: the document-sync handler never swallows an exception: a decode
failure is re-raised with the state unchanged, and a run can only return
normally when either the message had no data (plain return) or every
document-store write succeeded — i.e. any decoding or write exception
propagates to the platform so it can retry. -/
theorem C3_cloud_function_raises (event : CloudFunction.PubSubEvent)
    (loads : String → Except String JVal) (nowIso : String) (nowEpoch : Int)
    (wr1 wr2 : Except String Unit) (st : CloudFunction.FsState) :
    (∀ d e, event.data = some d → loads d = .error e →
      CloudFunction.pubsub_to_firestore event loads nowIso nowEpoch wr1 wr2 st
        = .error (e, st)) ∧
    (∀ st1, CloudFunction.pubsub_to_firestore event loads nowIso nowEpoch wr1 wr2 st
        = .ok st1 →
      (event.data = none ∧ st1 = st) ∨ (wr1 = .ok () ∧ wr2 = .ok ())) := by
  constructor
  · intro d e hd hl
    unfold CloudFunction.pubsub_to_firestore
    simp only [hd, hl]
  · intro st1 h
    unfold CloudFunction.pubsub_to_firestore at h
    cases hdata : event.data with
    | none =>
      simp only [hdata] at h
      exact Or.inl ⟨rfl, (Except.ok.inj h).symm⟩
    | some d =>
      simp only [hdata] at h
      cases hl : loads d with
      | error e => simp only [hl] at h; simp at h
      | ok payload =>
        simp only [hl] at h
        cases payload
        case jobj pfs =>
          right
          cases hae : event.attributes.getD (.jobj [])
          case jobj afs =>
            simp only [hae, JVal.pyGetD] at h
            cases wr1 with
            | error e1 => simp at h
            | ok u1 =>
              cases hcid : JVal.dictGetD pfs "coordinator_id" (.jstr "unknown")
              case jstr cid =>
                simp only [hcid] at h
                cases htp : JVal.dictGetD pfs "tasks_processed" (.jint 0)
                case jint tp =>
                  simp only [htp] at h
                  cases wr2 with
                  | error e2 => simp at h
                  | ok u2 => cases u1; cases u2; exact ⟨rfl, rfl⟩
                all_goals simp only [htp] at h; simp at h
              all_goals simp only [hcid] at h; simp at h
          all_goals simp only [hae, JVal.pyGetD] at h; simp at h
        all_goals simp at h

/-- Witness for C3 at a concrete event whose payload fails to decode: the
decode exception propagates with the state unchanged. -/
theorem C3_cloud_function_raises_witness :
    CloudFunction.pubsub_to_firestore ⟨some "m", none⟩ (fun _ => .error "bad base64")
        "T" 7 (.ok ()) (.ok ()) ⟨[], []⟩
      = .error ("bad base64", ⟨[], []⟩) :=
  (C3_cloud_function_raises ⟨some "m", none⟩ (fun _ => .error "bad base64")
    "T" 7 (.ok ()) (.ok ()) ⟨[], []⟩).1 "m" "bad base64" rfl rfl

/-- Witness for C9 at a concrete environment in which both storage
operations fail: the status is still `"success"`. -/
theorem C9_status_success_despite_errors_witness :
    (Index.coordinate_daily_tasks
        ⟨some "arn", .ok (some "s"), fun _ => .ok (.jobj []), .error "ddb down", .ok (),
         .error "s3 down", .ok ()⟩ "T").results.status = "success" :=
  C9_status_success_despite_errors.1
    ⟨some "arn", .ok (some "s"), fun _ => .ok (.jobj []), .error "ddb down", .ok (),
     .error "s3 down", .ok ()⟩ "T"
